import Mathlib

/-!
Verification development for the NeteaseTSBot voice-service
(src/voice-service/src/main.rs), a TS3 voice bridge with a gRPC control
plane. The Rust source is shallowly embedded: shared mutable state becomes
explicit state passing, the playback loop becomes a step function over tick
inputs, timed actor loops become functions over discrete event timelines.
Rust i32 fields are modelled as Int, Rust f32 DSP parameters as rationals
(the clamp logic under scrutiny is order-theoretic and does not depend on
rounding), and Rust byte strings as List UInt8 where byte length matters.
-/

/-- Playback state code STATE_IDLE, as stored in SharedStatus.state
(proto enum PlaybackState: IDLE = 1). -/
def STATE_IDLE : Int := 1

/-- Playback state code STATE_PLAYING (proto PlaybackState: PLAYING = 2). -/
def STATE_PLAYING : Int := 2

/-- Playback state code STATE_PAUSED (proto PlaybackState: PAUSED = 3). -/
def STATE_PAUSED : Int := 3

/-- PlaybackEvent.Type STARTED = 1 (main.rs line 303). -/
def PLAYBACK_STARTED : Int := 1

/-- PlaybackEvent.Type FINISHED = 2 (main.rs line 322). -/
def PLAYBACK_FINISHED : Int := 2

/-- PlaybackEvent.Type ERROR = 3 (main.rs line 327). -/
def PLAYBACK_ERROR : Int := 3

/-- The struct SharedStatus of main.rs lines 39-50: the mutex-guarded
status record. state is the raw i32 the code stores; the f32 FX fields are
modelled as rationals. -/
structure SharedStatus where
  state : Int
  now_playing_title : String
  now_playing_source_url : String
  volume_percent : Int
  fx_pan : ℚ
  fx_width : ℚ
  fx_swap_lr : Bool
  fx_bass_db : ℚ
  fx_reverb_mix : ℚ
deriving Repr, DecidableEq

/-- The struct PersistedVoiceState of main.rs lines 52-61: the on-disk
snapshot of the FX subset of SharedStatus. -/
structure PersistedVoiceState where
  volume_percent : Int
  fx_pan : ℚ
  fx_width : ℚ
  fx_swap_lr : Bool
  fx_bass_db : ℚ
  fx_reverb_mix : ℚ
deriving Repr, DecidableEq

/-- PersistedVoiceState::default (main.rs lines 63-74). -/
def PersistedVoiceState.default : PersistedVoiceState :=
  { volume_percent := 100, fx_pan := 0, fx_width := 1, fx_swap_lr := false,
    fx_bass_db := 0, fx_reverb_mix := 0 }

/-- PersistedVoiceState::from_status (main.rs lines 76-87). -/
def PersistedVoiceState.from_status (st : SharedStatus) : PersistedVoiceState :=
  { volume_percent := st.volume_percent, fx_pan := st.fx_pan,
    fx_width := st.fx_width, fx_swap_lr := st.fx_swap_lr,
    fx_bass_db := st.fx_bass_db, fx_reverb_mix := st.fx_reverb_mix }

/-- Rust Ord::clamp / f32::clamp on a linearly ordered value: min if below,
max if above, unchanged otherwise (used at main.rs 470, 505-519, 1535-1540). -/
def rustClamp {α : Type} [LinearOrder α] (v lo hi : α) : α :=
  if v < lo then lo else if hi < v then hi else v

/-- The proto CommandResponse message: ok flag plus message text. -/
structure CommandResponse where
  ok : Bool
  message : String
deriving Repr, DecidableEq

/-- The update VoiceServiceImpl::play performs on SharedStatus
(main.rs lines 296-301): store title and source_url, set state to PLAYING.
No emptiness validation is performed by the code. -/
def play_status_update (st : SharedStatus) (title source_url : String) : SharedStatus :=
  { st with now_playing_title := title, now_playing_source_url := source_url,
            state := STATE_PLAYING }

/-- The update VoiceServiceImpl::stop performs on SharedStatus
(main.rs lines 428-433): state to IDLE, clear title and source_url.
skip (lines 444-449) delegates to stop. -/
def stop_status_update (st : SharedStatus) : SharedStatus :=
  { st with state := STATE_IDLE, now_playing_title := "",
            now_playing_source_url := "" }

/-- Result of the pause / resume RPCs: the new status, the value sent on the
paused watch channel (none when no PlaybackControl is present), and the
gRPC response. -/
structure PauseResumeResult where
  status : SharedStatus
  pause_signal : Option Bool
  response : CommandResponse
deriving Repr, DecidableEq

/-- VoiceServiceImpl::pause (main.rs lines 346-368): move PLAYING to PAUSED,
otherwise leave the status untouched; send true on the paused watch channel
whenever a PlaybackControl exists; always answer ok. -/
def pause_rpc (st : SharedStatus) (has_playback : Bool) : PauseResumeResult :=
  { status := if st.state = STATE_PLAYING then { st with state := STATE_PAUSED } else st,
    pause_signal := if has_playback then some true else none,
    response := { ok := true, message := "ok" } }

/-- VoiceServiceImpl::resume (main.rs lines 398-420): move PAUSED to PLAYING,
otherwise leave the status untouched; send false on the paused watch channel
whenever a PlaybackControl exists; always answer ok. -/
def resume_rpc (st : SharedStatus) (has_playback : Bool) : PauseResumeResult :=
  { status := if st.state = STATE_PAUSED then { st with state := STATE_PLAYING } else st,
    pause_signal := if has_playback then some false else none,
    response := { ok := true, message := "ok" } }

/-- VoiceServiceImpl::set_volume (main.rs lines 466-482): clamp the request
to [0, 200], store it, snapshot for the persistence channel. -/
def set_volume (st : SharedStatus) (volume_percent : Int) :
    SharedStatus × PersistedVoiceState :=
  let v := rustClamp volume_percent 0 200
  let st2 := { st with volume_percent := v }
  (st2, PersistedVoiceState.from_status st2)

/-- The proto SetAudioFxRequest message: every field optional, unspecified
meaning unchanged (main.rs lines 501-520). -/
structure SetAudioFxRequest where
  pan : Option ℚ
  width : Option ℚ
  swap_lr : Option Bool
  bass_db : Option ℚ
  reverb_mix : Option ℚ
deriving Repr, DecidableEq

/-- The pan branch of set_audio_fx (main.rs lines 505-507). -/
def apply_fx_pan (st : SharedStatus) : Option ℚ → SharedStatus
  | some p => { st with fx_pan := rustClamp p (-1) 1 }
  | none => st

/-- The width branch of set_audio_fx (main.rs lines 508-510). -/
def apply_fx_width (st : SharedStatus) : Option ℚ → SharedStatus
  | some w => { st with fx_width := rustClamp w 0 3 }
  | none => st

/-- The swap_lr branch of set_audio_fx (main.rs lines 511-513). -/
def apply_fx_swap_lr (st : SharedStatus) : Option Bool → SharedStatus
  | some s => { st with fx_swap_lr := s }
  | none => st

/-- The bass_db branch of set_audio_fx (main.rs lines 515-517). -/
def apply_fx_bass_db (st : SharedStatus) : Option ℚ → SharedStatus
  | some b => { st with fx_bass_db := rustClamp b 0 18 }
  | none => st

/-- The reverb_mix branch of set_audio_fx (main.rs lines 518-520). -/
def apply_fx_reverb_mix (st : SharedStatus) : Option ℚ → SharedStatus
  | some m => { st with fx_reverb_mix := rustClamp m 0 1 }
  | none => st

/-- VoiceServiceImpl::set_audio_fx (main.rs lines 497-530): apply each
present field with its per-field clamp, in source order, then snapshot for
the persistence channel. -/
def set_audio_fx (st : SharedStatus) (r : SetAudioFxRequest) :
    SharedStatus × PersistedVoiceState :=
  let st2 := apply_fx_reverb_mix
    (apply_fx_bass_db
      (apply_fx_swap_lr
        (apply_fx_width
          (apply_fx_pan st r.pan) r.width) r.swap_lr) r.bass_db) r.reverb_mix
  (st2, PersistedVoiceState.from_status st2)

/-- Raw TS3 command packets the control plane forwards on the command
channel; set_client_description builds clientupdate client_description=...
(main.rs lines 384-385). The description is the raw byte string. -/
inductive RawTs3Command
  | clientupdate_description (descr : List UInt8)
deriving Repr, DecidableEq

/-- Result of set_client_description: the gRPC response, the raw commands
forwarded to the TS3 actor, and the (untouched) status. -/
structure SetClientDescriptionResult where
  response : CommandResponse
  commands : List RawTs3Command
  status : SharedStatus
deriving Repr, DecidableEq

/-- VoiceServiceImpl::set_client_description (main.rs lines 370-396).
Rust desc.len() is the byte length of the string, hence List UInt8 here.
If the length exceeds 700 the RPC answers ok=false with message
"description too long" and forwards nothing; otherwise it forwards exactly
one clientupdate command and answers ok=true. SharedStatus is never
touched on either path. -/
def set_client_description (st : SharedStatus) (descr : List UInt8) :
    SetClientDescriptionResult :=
  if 700 < descr.length then
    { response := { ok := false, message := "description too long" },
      commands := [], status := st }
  else
    { response := { ok := true, message := "ok" },
      commands := [RawTs3Command.clientupdate_description descr], status := st }

/-- The initial SharedStatus built in main (main.rs lines 1522-1532). -/
def initStatus : SharedStatus :=
  { state := STATE_IDLE, now_playing_title := "", now_playing_source_url := "",
    volume_percent := 100, fx_pan := 0, fx_width := 1, fx_swap_lr := false,
    fx_bass_db := 0, fx_reverb_mix := 0 }

/-- Startup application of a persisted voice state file (main.rs lines
1534-1541): a successfully loaded snapshot overwrites the FX fields of the
initial status with per-field clamping; a missing or invalid file leaves
the defaults. -/
def apply_persisted_load : Option PersistedVoiceState → SharedStatus
  | none => initStatus
  | some ps =>
    { initStatus with
      volume_percent := rustClamp ps.volume_percent 0 200,
      fx_pan := rustClamp ps.fx_pan (-1) 1,
      fx_width := rustClamp ps.fx_width 0 3,
      fx_swap_lr := ps.fx_swap_lr,
      fx_bass_db := rustClamp ps.fx_bass_db 0 18,
      fx_reverb_mix := rustClamp ps.fx_reverb_mix 0 1 }

/-- The consistency invariant the spec asserts for SharedStatus: the
now-playing strings are non-empty exactly when the state is PLAYING or
PAUSED. -/
def statusConsistent (st : SharedStatus) : Prop :=
  (st.now_playing_title ≠ "" ∧ st.now_playing_source_url ≠ "") ↔
    (st.state = STATE_PLAYING ∨ st.state = STATE_PAUSED)

instance (st : SharedStatus) : Decidable (statusConsistent st) := by
  unfold statusConsistent
  infer_instance

/-- The declared parameter ranges of SharedStatus: volume_percent in
[0, 200], fx_pan in [-1, 1], fx_width in [0, 3], fx_bass_db in [0, 18],
fx_reverb_mix in [0, 1]. -/
def fxInRange (st : SharedStatus) : Prop :=
  0 ≤ st.volume_percent ∧ st.volume_percent ≤ 200 ∧
  -1 ≤ st.fx_pan ∧ st.fx_pan ≤ 1 ∧
  0 ≤ st.fx_width ∧ st.fx_width ≤ 3 ∧
  0 ≤ st.fx_bass_db ∧ st.fx_bass_db ≤ 18 ∧
  0 ≤ st.fx_reverb_mix ∧ st.fx_reverb_mix ≤ 1

instance (st : SharedStatus) : Decidable (fxInRange st) := by
  unfold fxInRange
  infer_instance

/-! The observable operations of VoiceServiceImpl::play (main.rs lines
286-344), in their order of execution, as an action trace. -/

/-- One observable operation of the play RPC body. -/
inductive PlayAction
  | queueNotice
  | setStatusPlaying
  | emitStarted
  | stopCurrent
  | spawnPlaybackTask
  | storePlaybackControl
deriving Repr, DecidableEq

/-- The operation trace of VoiceServiceImpl::play (main.rs lines 286-344),
statement by statement: queue the chat notice when the notice field is
non-empty (lines 292-294), store title / source_url / state = PLAYING
(lines 296-301), emit the STARTED playback event (line 304), call
stop_internal (line 306), spawn the new playback task (lines 318-331),
store the new PlaybackControl (lines 333-338). -/
def playTrace (notice : String) : List PlayAction :=
  (if notice.isEmpty then [] else [PlayAction.queueNotice]) ++
  [PlayAction.setStatusPlaying, PlayAction.emitStarted, PlayAction.stopCurrent,
   PlayAction.spawnPlaybackTask, PlayAction.storePlaybackControl]

/-! Path resolution (resolve_repo_relative, main.rs lines 606-627). A path
is a flag (absolute or not) plus a component list; a directory is its
component list under the filesystem root, so the root itself is []. The
filesystem is abstracted by the oracle git d, telling whether directory d
contains a .git entry. PathBuf::pop removes the last component and fails
exactly at the root. -/

/-- An abstract filesystem path: absolutes are rooted, relatives are not. -/
structure MPath where
  absolute : Bool
  components : List String
deriving Repr, DecidableEq

/-- The search loop of resolve_repo_relative (main.rs lines 613-624) with
the current directory passed innermost-component-first (reversed), so each
step drops the head, exactly as PathBuf::pop drops the last component. At
the root the code checks .git one final time and, when pop fails, falls
through to last.join(rel) with last equal to the root. -/
def resolveLoopRev (git : List String → Bool) : List String → List String
  | [] => if git [] then [] else []
  | c :: rest =>
    if git (c :: rest).reverse then (c :: rest).reverse
    else resolveLoopRev git rest

/-- The directory the search loop of resolve_repo_relative stops at:
either the nearest ancestor (the current directory included) containing a
.git entry, or the directory where pop failed. -/
def resolveLoop (git : List String → Bool) (cwd : List String) : List String :=
  resolveLoopRev git cwd.reverse

/-- resolve_repo_relative (main.rs lines 606-627): absolute paths are
returned unchanged; a relative path is joined to the directory the search
loop stops at. -/
def resolve_repo_relative (git : List String → Bool) (cwd : List String)
    (p : MPath) : MPath :=
  if p.absolute then p
  else { absolute := true, components := resolveLoop git cwd ++ p.components }

/-- The ancestor chain of a directory, nearest first, the directory itself
included and ending at the root: for [a, b] this is [[a, b], [a], []]. -/
def gitAncestors (cwd : List String) : List (List String) :=
  cwd.reverse.tails.map List.reverse

/-- Modelled from the claim wording of C4 (for refinement comparison only,
not from the source): resolve a relative path against the nearest ancestor
of the current working directory containing a .git entry, and against the
current working directory itself when no ancestor contains one. -/
def resolve_repo_relative_claimed (git : List String → Bool) (cwd : List String)
    (p : MPath) : MPath :=
  if p.absolute then p
  else
    match (gitAncestors cwd).find? git with
    | some d => { absolute := true, components := d ++ p.components }
    | none => { absolute := true, components := cwd ++ p.components }

/-! The persistence task (main.rs lines 1543-1592): a debounce loop holding
a pending snapshot and a 200 ms timer. Arrivals are a time-ordered list of
(unix-ms, snapshot) pairs; close_time is when the channel closes. Between
consecutive arrivals the timer fires whenever its deadline precedes the
next arrival; after the last arrival it fires when its deadline precedes
the channel close, and a snapshot still pending at close is flushed. -/

/-- The persistence task of main.rs lines 1546-1591, as a function from the
timeline of snapshot arrivals to the list of file writes it performs, in
order. pending and deadline are the two loop variables; an arrival stores
the snapshot as pending and arms the timer 200 ms out (lines 1554-1556); an
expired timer writes pending and disarms (lines 1563-1578); channel close
flushes a still-pending snapshot (lines 1583-1590). -/
def debounceWrites (pending : Option PersistedVoiceState) (deadline : Option Nat) :
    List (Nat × PersistedVoiceState) → Nat → List PersistedVoiceState
  | (t, s) :: rest, close_time =>
    let fires := match deadline with
      | some d => decide (d < t)
      | none => false
    (if fires then pending.toList else []) ++
      debounceWrites (some s) (some (t + 200)) rest close_time
  | [], close_time =>
    match deadline, pending with
    | some d, some p =>
      if d ≤ close_time then [p]   -- timer fires before close; flush then finds nothing
      else [p]                     -- close first; the final flush writes pending
    | _, some p => [p]
    | _, none => []

/-- Gap condition of claim C8 on an arrival timeline: each arrival comes
strictly after the previous one and strictly less than 200 ms after it. -/
def gapsOK : Nat → List (Nat × PersistedVoiceState) → Bool
  | _, [] => true
  | tprev, (t, _) :: rest =>
    decide (tprev < t) && decide (t < tprev + 200) && gapsOK t rest

/-! The TS3 actor reconnect loop (ts3_actor, main.rs lines 712-759 and
1071-1091): backoff starts at 1 s, is reset to 1 s by a successful connect
(line 740), doubles saturating at 60 s after every sleep (lines 756, 1090),
and the slept wait is raised to at least 30 s whenever the failure
diagnostic contains "ClientTooManyClonesConnected" (lines 747-751,
1076-1079). -/

/-- One iteration outcome of the ts3_actor outer loop: either the connect
call failed, or it succeeded and the inner event loop later ended (its
conn_err diagnostic in hand). cloneDiag tells whether the diagnostic
message contains "ClientTooManyClonesConnected". -/
inductive TsOutcome
  | connectFail (cloneDiag : Bool)
  | connected (cloneDiag : Bool)
deriving Repr, DecidableEq

/-- One outer-loop iteration of ts3_actor, reduced to its backoff
arithmetic: from the current backoff (seconds) and the iteration outcome,
the wait actually slept and the next backoff. A connect failure sleeps the
current backoff, raised to 30 s on the clone diagnostic (lines 747-753),
then doubles capped at 60 s (line 756). A successful connect first resets
backoff to 1 s (line 740); when its inner loop ends, the same sleep
(lines 1075-1088) and doubling (line 1090) run from the reset value. -/
def backoffStep (backoff : Nat) : TsOutcome → Nat × Nat
  | TsOutcome.connectFail clone =>
    (if clone then max backoff 30 else backoff, min (backoff * 2) 60)
  | TsOutcome.connected clone =>
    (if clone then max 1 30 else 1, min (1 * 2) 60)

/-- The waits ts3_actor sleeps across a sequence of outer-loop iterations,
threading the backoff through backoffStep. -/
def backoffWaits (backoff : Nat) : List TsOutcome → List Nat
  | [] => []
  | o :: rest =>
    (backoffStep backoff o).1 :: backoffWaits (backoffStep backoff o).2 rest

/-! The playback loop (playback_loop, main.rs lines 1096-1486), embedded at
tick granularity. All PCM frames the reader task delivers are full 3840
byte frames (read_exact into a frame_bytes buffer), so a frame is abstract
and the local VecDeque is tracked by its length. Per tick the loop drains
arrived frames, performs the first-pcm / 5 s no-pcm check, updates the
pre-buffer flag, takes a real frame or falls back to silence, enforces the
150-consecutive-underrun limit, then encodes and sends one packet. DSP and
Opus encoding keep cadence only and never change whether a packet is sent,
so a packet is recorded as real or silence. -/

/-- A packet handed to ts3_audio_tx at the end of a tick: encoded from a
real PCM frame, or from the zero-filled silence buffer. -/
inductive Packet
  | real
  | silence
deriving Repr, DecidableEq

/-- The loop state of playback_loop across ticks: pcm_buf is the length of
the local decoded-frame VecDeque (line 1210), prebuffering and
logged_first_pcm the flags of lines 1213 and 1208, and the underrun
counters those of lines 1205-1207 (the diagnostics-only window counter is
omitted). -/
structure PlayLoopState where
  pcm_buf : Nat
  prebuffering : Bool
  logged_first_pcm : Bool
  underruns_consecutive : Nat
  underruns_total : Nat
deriving Repr, DecidableEq

/-- Result of the up-to-3 ms wait on pcm_rx when the local buffer is empty
(main.rs lines 1282-1294): a frame arrived in time, the channel closed
(ffmpeg finished or failed), or the wait timed out. -/
inductive LateRecv
  | frame
  | closed
  | timeout
deriving Repr, DecidableEq

/-- The environment of one tick: how many frames the non-blocking drain of
pcm_rx yields (lines 1245-1249), what the 3 ms fallback wait would yield if
consulted, and the wall-clock milliseconds since playback start (for the
5 s no-pcm check of line 1255). -/
structure TickInput where
  arrivals : Nat
  late : LateRecv
  elapsed_ms : Nat
deriving Repr, DecidableEq

/-- The pre-buffer target of 5 decoded frames (main.rs line 1212). -/
def prebuffer_target : Nat := 5

/-- Outcome of one tick body: continue with a new state having sent one
packet, break on reader channel close (end of stream), or fail with the
no-pcm or the sustained-underrun error. -/
inductive TickOutcome
  | cont (st : PlayLoopState) (pkt : Packet)
  | eos
  | errNoPcm
  | errUnderrun
deriving Repr, DecidableEq

/-- The frame acquisition of one tick (main.rs lines 1274-1296), from the
pre-buffer flag, the buffer length and the 3 ms wait result: during
pre-buffer no frame is taken and silence is used; otherwise a buffered
frame is popped, or the 3 ms wait supplies one, closes the stream (none),
or times out into silence. Yields the remaining buffer length and whether
a real frame was obtained. -/
def acquireFrame (prebuf : Bool) (buf : Nat) (late : LateRecv) : Option (Nat × Bool) :=
  if prebuf then some (buf, false)
  else if 0 < buf then some (buf - 1, true)
  else
    match late with
    | LateRecv.frame => some (buf, true)
    | LateRecv.closed => none
    | LateRecv.timeout => some (buf, false)

/-- One iteration of the main loop of playback_loop (main.rs lines
1224-1471), pause and cancellation aside: drain arrivals into the buffer
(1245-1249); if no frame was ever seen and the buffer is still empty, fail
after 5 s (1251-1258), otherwise record first pcm; shrink-check the
pre-buffer flag (1260-1262); acquire a frame or fall back to silence,
breaking on channel close (1274-1296); on silence bump the underrun
counters, else reset the consecutive counter (1298-1305); fail once real
audio was seen and 150 consecutive silence frames accumulate (1309-1315);
finally encode and send one packet (1431-1441). -/
def playbackTick (st : PlayLoopState) (inp : TickInput) : TickOutcome :=
  let buf := st.pcm_buf + inp.arrivals
  if st.logged_first_pcm = false ∧ buf = 0 ∧ 5000 ≤ inp.elapsed_ms then
    TickOutcome.errNoPcm
  else
    let logged := st.logged_first_pcm || decide (0 < buf)
    let prebuf := st.prebuffering && decide (buf < prebuffer_target)
    match acquireFrame prebuf buf inp.late with
    | none => TickOutcome.eos
    | some (buf2, got) =>
      let uc := if got then 0 else st.underruns_consecutive + 1
      let ut := if got then st.underruns_total else st.underruns_total + 1
      if logged = true ∧ 150 ≤ uc then TickOutcome.errUnderrun
      else
        TickOutcome.cont
          { pcm_buf := buf2, prebuffering := prebuf, logged_first_pcm := logged,
            underruns_consecutive := uc, underruns_total := ut }
          (if got then Packet.real else Packet.silence)

/-- Terminal observation of a run of the playback loop over a finite tick
timeline: still running, finished by end of stream, or failed; packets is
everything handed to ts3_audio_tx by the per-tick sends, in order. -/
inductive LoopOutcome
  | running (st : PlayLoopState) (packets : List Packet)
  | finished (packets : List Packet)
  | failNoPcm (packets : List Packet)
  | failUnderrun (packets : List Packet)
deriving Repr, DecidableEq

/-- Run of the playback loop from a given state over a list of tick
environments, accumulating sent packets. -/
def playbackRunFrom (st : PlayLoopState) (acc : List Packet) :
    List TickInput → LoopOutcome
  | [] => LoopOutcome.running st acc
  | inp :: rest =>
    match playbackTick st inp with
    | TickOutcome.cont st2 pkt => playbackRunFrom st2 (acc ++ [pkt]) rest
    | TickOutcome.eos => LoopOutcome.finished acc
    | TickOutcome.errNoPcm => LoopOutcome.failNoPcm acc
    | TickOutcome.errUnderrun => LoopOutcome.failUnderrun acc

/-- The loop state at entry of playback_loop (main.rs lines 1205-1213):
empty buffer, pre-buffering, nothing seen, zero counters. -/
def initPlayLoopState : PlayLoopState :=
  { pcm_buf := 0, prebuffering := true, logged_first_pcm := false,
    underruns_consecutive := 0, underruns_total := 0 }

/-- Run of the playback loop from its initial state. -/
def playbackRun (inputs : List TickInput) : LoopOutcome :=
  playbackRunFrom initPlayLoopState [] inputs

/-- The error string of the sustained-underrun failure (main.rs line 1310),
message formatting reduced to its constant prefix. -/
def UNDERRUN_ERROR : String := "sustained pcm underrun"

/-- The error string of the no-pcm failure (main.rs line 1256). -/
def NO_PCM_ERROR : String := "no pcm received from ffmpeg"

/-- The Result the spawned playback task observes from a finished run:
finished maps to Ok, each failure to its Err. A still-running loop has no
result yet. -/
def loopResult : LoopOutcome → Option (Except String Unit)
  | LoopOutcome.running _ _ => none
  | LoopOutcome.finished _ => some (Except.ok ())
  | LoopOutcome.failNoPcm _ => some (Except.error NO_PCM_ERROR)
  | LoopOutcome.failUnderrun _ => some (Except.error UNDERRUN_ERROR)

/-- A PlaybackEvent message as emit_playback builds it (main.rs lines
257-273). -/
structure PlaybackEventMsg where
  ty : Int
  title : String
  source_url : String
  detail : String
deriving Repr, DecidableEq

/-- The terminal playback events the task spawned by play emits (main.rs
lines 318-331): exactly one FINISHED on Ok, exactly one ERROR carrying the
error text on Err. -/
def playbackTaskEvents (result : Except String Unit) (title source_url : String) :
    List PlaybackEventMsg :=
  match result with
  | Except.ok _ =>
    [{ ty := PLAYBACK_FINISHED, title := title, source_url := source_url, detail := "" }]
  | Except.error e =>
    [{ ty := PLAYBACK_ERROR, title := title, source_url := source_url, detail := e }]

/-! Theorems. General helper lemmas come first, then per-claim theorems,
counterexamples and witnesses. -/

/-- Rust clamp lands in [lo, hi] whenever lo ≤ hi. -/
theorem rustClamp_mem {α : Type} [LinearOrder α] (v lo hi : α) (h : lo ≤ hi) :
    lo ≤ rustClamp v lo hi ∧ rustClamp v lo hi ≤ hi := by
  unfold rustClamp
  split_ifs with h1 h2
  · exact ⟨le_refl lo, h⟩
  · exact ⟨h, le_refl hi⟩
  · exact ⟨le_of_not_lt h1, le_of_not_lt h2⟩

/-- Claim C6: for a description of byte length above 700, the RPC answers
ok=false with message "description too long", forwards no raw command and
leaves SharedStatus untouched; for byte length at most 700 it forwards
exactly one clientupdate client_description command and answers ok=true
(also leaving the status untouched). -/
theorem c6_set_client_description_length_check (st : SharedStatus) (descr : List UInt8) :
    (700 < descr.length →
      set_client_description st descr =
        { response := { ok := false, message := "description too long" },
          commands := [], status := st }) ∧
    (descr.length ≤ 700 →
      (set_client_description st descr).response.ok = true ∧
      (set_client_description st descr).commands
        = [RawTs3Command.clientupdate_description descr] ∧
      (set_client_description st descr).status = st) := by
  constructor
  · intro h
    simp [set_client_description, h]
  · intro h
    simp [set_client_description, Nat.not_lt.mpr h]

/-- Claim C10: pause and resume always answer ok=true; pause moves the
state to PAUSED exactly when it was PLAYING (and otherwise changes no
field), resume moves it to PLAYING exactly when it was PAUSED (and
otherwise changes no field); and in every starting state the pause flag is
still signalled on the watch channel whenever a playback task exists. -/
theorem c10_pause_resume_total (st : SharedStatus) (has_playback : Bool) :
    (pause_rpc st has_playback).response = { ok := true, message := "ok" } ∧
    (resume_rpc st has_playback).response = { ok := true, message := "ok" } ∧
    ((pause_rpc st has_playback).status.state = STATE_PAUSED ↔
      st.state = STATE_PLAYING ∨ st.state = STATE_PAUSED) ∧
    (st.state = STATE_PLAYING →
      (pause_rpc st has_playback).status = { st with state := STATE_PAUSED }) ∧
    (st.state ≠ STATE_PLAYING → (pause_rpc st has_playback).status = st) ∧
    ((resume_rpc st has_playback).status.state = STATE_PLAYING ↔
      st.state = STATE_PAUSED ∨ st.state = STATE_PLAYING) ∧
    (st.state = STATE_PAUSED →
      (resume_rpc st has_playback).status = { st with state := STATE_PLAYING }) ∧
    (st.state ≠ STATE_PAUSED → (resume_rpc st has_playback).status = st) ∧
    ((pause_rpc st has_playback).pause_signal
      = if has_playback then some true else none) ∧
    ((resume_rpc st has_playback).pause_signal
      = if has_playback then some false else none) := by
  unfold pause_rpc resume_rpc STATE_PLAYING STATE_PAUSED
  by_cases h2 : st.state = 2 <;> by_cases h3 : st.state = 3 <;> simp_all

/-- Claim C1 counterexample: on the concrete request with notice "n", the
trace of play puts the status update at position 1 and the STARTED event
at position 2, both strictly before stop_current at position 3 — the
claimed order, with stop_current first, is false. -/
theorem c1_counterexample_stop_not_first :
    (playTrace "n").indexOf PlayAction.setStatusPlaying = 1 ∧
    (playTrace "n").indexOf PlayAction.emitStarted = 2 ∧
    (playTrace "n").indexOf PlayAction.stopCurrent = 3 ∧
    (playTrace "n").indexOf PlayAction.setStatusPlaying <
      (playTrace "n").indexOf PlayAction.stopCurrent ∧
    (playTrace "n").indexOf PlayAction.emitStarted <
      (playTrace "n").indexOf PlayAction.stopCurrent := by
  refine ⟨rfl, rfl, rfl, ?_, ?_⟩ <;> decide

/-- Claim C1 (amended): for every play request, the trace queues the chat
notice exactly when the notice field is non-empty, emits exactly one
STARTED event, and orders the operations as the code does: status update,
then STARTED, then stop_current, then spawning the new playback task —
stop_current runs after the status update and the STARTED event, not
before them. -/
theorem c1_amended_play_operation_order (notice : String) :
    (playTrace notice).count PlayAction.emitStarted = 1 ∧
    (PlayAction.queueNotice ∈ playTrace notice ↔ notice.isEmpty = false) ∧
    (playTrace notice).indexOf PlayAction.setStatusPlaying <
      (playTrace notice).indexOf PlayAction.emitStarted ∧
    (playTrace notice).indexOf PlayAction.emitStarted <
      (playTrace notice).indexOf PlayAction.stopCurrent ∧
    (playTrace notice).indexOf PlayAction.stopCurrent <
      (playTrace notice).indexOf PlayAction.spawnPlaybackTask := by
  cases h : notice.isEmpty <;> simp only [playTrace, h] <;> decide

/-- Nat fact for the backoff cap: capping before or after a further
doubling by k ≥ 1 gives the same capped value. -/
theorem nat_min_mul_min (a c k : Nat) (hk : 1 ≤ k) :
    min (min a c * k) c = min (a * k) c := by
  rcases le_total a c with h | h
  · rw [min_eq_left h]
  · rw [min_eq_right h]
    have h1 : c ≤ c * k := Nat.le_mul_of_pos_right c (by omega)
    have h2 : c ≤ a * k := le_trans h (Nat.le_mul_of_pos_right a (by omega))
    rw [min_eq_right h1, min_eq_right h2]

/-- Across n consecutive connect failures (no clone diagnostic) starting
from backoff b ≤ 60, the slept waits are b, 2b, 4b, ... capped at 60. -/
theorem backoffWaits_fail_replicate (n : Nat) :
    ∀ b : Nat, b ≤ 60 →
      backoffWaits b (List.replicate n (TsOutcome.connectFail false))
        = (List.range n).map (fun i => min (b * 2 ^ i) 60) := by
  induction n with
  | zero => intro b _; simp [backoffWaits]
  | succ n ih =>
    intro b hb
    rw [List.replicate_succ]
    simp only [backoffWaits, backoffStep, if_neg]
    rw [ih (min (b * 2) 60) (min_le_right _ _)]
    rw [List.range_succ_eq_map, List.map_cons, List.map_map]
    refine List.cons_eq_cons.mpr ⟨?_, ?_⟩
    · simp [min_eq_left hb]
    · refine List.map_congr_left ?_
      intro i _
      have := nat_min_mul_min (b * 2) 60 (2 ^ i) (Nat.one_le_two_pow)
      simp only [Function.comp]
      rw [this, pow_succ]
      ring_nf

/-- Claim C9: in the reconnect loop the wait before each successive
connect attempt follows the doubling backoff 1 s, 2 s, 4 s, ... capped at
60 s across consecutive failures; a successful connect resets the next
backoff to 1 s; and any outcome whose diagnostic contains
ClientTooManyClonesConnected sleeps at least 30 s. -/
theorem c9_reconnect_backoff (n b : Nat) :
    backoffWaits 1 (List.replicate n (TsOutcome.connectFail false))
      = (List.range n).map (fun i => min (2 ^ i) 60) ∧
    backoffStep b (TsOutcome.connected false) = (1, 2) ∧
    backoffStep b (TsOutcome.connected true) = (30, 2) ∧
    30 ≤ (backoffStep b (TsOutcome.connectFail true)).1 ∧
    30 ≤ (backoffStep b (TsOutcome.connected true)).1 := by
  refine ⟨?_, rfl, rfl, ?_, Nat.le_refl 30⟩
  · have h := backoffWaits_fail_replicate n 1 (by omega)
    simpa using h
  · exact le_max_right b 30

/-- The set_audio_fx update never touches state, now_playing_title or
now_playing_source_url. -/
theorem set_audio_fx_preserves_status_fields (st : SharedStatus) (r : SetAudioFxRequest) :
    (set_audio_fx st r).1.state = st.state ∧
    (set_audio_fx st r).1.now_playing_title = st.now_playing_title ∧
    (set_audio_fx st r).1.now_playing_source_url = st.now_playing_source_url := by
  rcases r with ⟨p, w, s, b, m⟩
  cases p <;> cases w <;> cases s <;> cases b <;> cases m <;>
    simp [set_audio_fx, apply_fx_pan, apply_fx_width, apply_fx_swap_lr,
          apply_fx_bass_db, apply_fx_reverb_mix]

/-- Claim C3 counterexample: a play request whose title and source_url are
both empty strings leaves state = PLAYING with empty now-playing strings,
so the claimed invariant is False right after this control RPC. -/
theorem c3_counterexample_empty_play :
    (play_status_update initStatus "" "").state = STATE_PLAYING ∧
    (play_status_update initStatus "" "").now_playing_title = "" ∧
    (play_status_update initStatus "" "").now_playing_source_url = "" ∧
    statusConsistent (play_status_update initStatus "" "") = False :=
  ⟨rfl, rfl, rfl, eq_false (by decide)⟩

/-- Claim C3 (amended): the consistency invariant — now-playing strings
non-empty exactly when the state is PLAYING or PAUSED — is preserved by
stop/skip, pause, resume, set_volume, set_audio_fx and
set_client_description, and is established by play provided the request
carries a non-empty title and a non-empty source_url. (The unamended
claim fails for a play request with an empty title or source_url, which
the code stores without validation; see the counterexample.) -/
theorem c3_amended_rpc_invariant (st : SharedStatus) (h : statusConsistent st)
    (title source_url : String) (ht : title ≠ "") (hu : source_url ≠ "")
    (v : Int) (r : SetAudioFxRequest) (has_playback : Bool) (descr : List UInt8) :
    statusConsistent (play_status_update st title source_url) ∧
    statusConsistent (stop_status_update st) ∧
    statusConsistent (pause_rpc st has_playback).status ∧
    statusConsistent (resume_rpc st has_playback).status ∧
    statusConsistent (set_volume st v).1 ∧
    statusConsistent (set_audio_fx st r).1 ∧
    statusConsistent (set_client_description st descr).status := by
  have hplay : statusConsistent (play_status_update st title source_url) := by
    simp [statusConsistent, play_status_update, STATE_PLAYING, ht, hu]
  have hstop : statusConsistent (stop_status_update st) := by
    simp [statusConsistent, stop_status_update, STATE_IDLE, STATE_PLAYING, STATE_PAUSED]
  have hpause : statusConsistent (pause_rpc st has_playback).status := by
    unfold statusConsistent at h ⊢
    unfold pause_rpc
    unfold STATE_PLAYING STATE_PAUSED at h ⊢
    by_cases hs : st.state = 2 <;> simp_all
  have hresume : statusConsistent (resume_rpc st has_playback).status := by
    unfold statusConsistent at h ⊢
    unfold resume_rpc
    unfold STATE_PLAYING STATE_PAUSED at h ⊢
    by_cases hs : st.state = 3 <;> simp_all
  have hvol : statusConsistent (set_volume st v).1 := h
  have hfx : statusConsistent (set_audio_fx st r).1 := by
    obtain ⟨e1, e2, e3⟩ := set_audio_fx_preserves_status_fields st r
    unfold statusConsistent at h ⊢
    rw [e1, e2, e3]
    exact h
  have hdesc : statusConsistent (set_client_description st descr).status := by
    unfold set_client_description
    split <;> exact h
  exact ⟨hplay, hstop, hpause, hresume, hvol, hfx, hdesc⟩

/-- Claim C3 witness: the amended invariant theorem applied at the initial
status with the concrete request title "t", source_url "u", volume 300, an
all-unset FX request, an active playback and an empty description. -/
theorem c3_amended_rpc_invariant_witness :
    statusConsistent (play_status_update initStatus "t" "u") ∧
    statusConsistent (stop_status_update initStatus) ∧
    statusConsistent (pause_rpc initStatus true).status ∧
    statusConsistent (resume_rpc initStatus true).status ∧
    statusConsistent (set_volume initStatus 300).1 ∧
    statusConsistent (set_audio_fx initStatus ⟨none, none, none, none, none⟩).1 ∧
    statusConsistent (set_client_description initStatus []).status :=
  c3_amended_rpc_invariant initStatus (by decide) "t" "u" (by decide) (by decide)
    300 ⟨none, none, none, none, none⟩ true []

/-- The pan branch preserves the declared ranges. -/
theorem fxInRange_apply_fx_pan (st : SharedStatus) (h : fxInRange st) (o : Option ℚ) :
    fxInRange (apply_fx_pan st o) := by
  cases o with
  | none => exact h
  | some p =>
    obtain ⟨h1, h2, h3, h4, h5, h6, h7, h8, h9, h10⟩ := h
    have hc := rustClamp_mem p (-1 : ℚ) 1 (by norm_num)
    exact ⟨h1, h2, hc.1, hc.2, h5, h6, h7, h8, h9, h10⟩

/-- The width branch preserves the declared ranges. -/
theorem fxInRange_apply_fx_width (st : SharedStatus) (h : fxInRange st) (o : Option ℚ) :
    fxInRange (apply_fx_width st o) := by
  cases o with
  | none => exact h
  | some w =>
    obtain ⟨h1, h2, h3, h4, h5, h6, h7, h8, h9, h10⟩ := h
    have hc := rustClamp_mem w (0 : ℚ) 3 (by norm_num)
    exact ⟨h1, h2, h3, h4, hc.1, hc.2, h7, h8, h9, h10⟩

/-- The swap_lr branch preserves the declared ranges. -/
theorem fxInRange_apply_fx_swap_lr (st : SharedStatus) (h : fxInRange st) (o : Option Bool) :
    fxInRange (apply_fx_swap_lr st o) := by
  cases o with
  | none => exact h
  | some s => exact h

/-- The bass_db branch preserves the declared ranges. -/
theorem fxInRange_apply_fx_bass_db (st : SharedStatus) (h : fxInRange st) (o : Option ℚ) :
    fxInRange (apply_fx_bass_db st o) := by
  cases o with
  | none => exact h
  | some b =>
    obtain ⟨h1, h2, h3, h4, h5, h6, h7, h8, h9, h10⟩ := h
    have hc := rustClamp_mem b (0 : ℚ) 18 (by norm_num)
    exact ⟨h1, h2, h3, h4, h5, h6, hc.1, hc.2, h9, h10⟩

/-- The reverb_mix branch preserves the declared ranges. -/
theorem fxInRange_apply_fx_reverb_mix (st : SharedStatus) (h : fxInRange st) (o : Option ℚ) :
    fxInRange (apply_fx_reverb_mix st o) := by
  cases o with
  | none => exact h
  | some m =>
    obtain ⟨h1, h2, h3, h4, h5, h6, h7, h8, h9, h10⟩ := h
    have hc := rustClamp_mem m (0 : ℚ) 1 (by norm_num)
    exact ⟨h1, h2, h3, h4, h5, h6, h7, h8, hc.1, hc.2⟩

/-- Claim C7: immediately after set_volume or set_audio_fx, for any input
values, every stored parameter is inside its declared range (the untouched
fields keeping their already-in-range values), and the initial status
loaded from a persisted file is in range for arbitrary, even out-of-range,
persisted values. -/
theorem c7_fx_parameter_ranges (st : SharedStatus) (h : fxInRange st) (v : Int)
    (r : SetAudioFxRequest) (loaded : Option PersistedVoiceState) :
    fxInRange (set_volume st v).1 ∧
    fxInRange (set_audio_fx st r).1 ∧
    fxInRange (apply_persisted_load loaded) := by
  have hp : ∀ q : ℚ, -1 ≤ rustClamp q (-1) 1 ∧ rustClamp q (-1) 1 ≤ 1 :=
    fun q => rustClamp_mem q (-1) 1 (by norm_num)
  have hw : ∀ q : ℚ, 0 ≤ rustClamp q 0 3 ∧ rustClamp q 0 3 ≤ 3 :=
    fun q => rustClamp_mem q 0 3 (by norm_num)
  have hbb : ∀ q : ℚ, 0 ≤ rustClamp q 0 18 ∧ rustClamp q 0 18 ≤ 18 :=
    fun q => rustClamp_mem q 0 18 (by norm_num)
  have hm : ∀ q : ℚ, 0 ≤ rustClamp q 0 1 ∧ rustClamp q 0 1 ≤ 1 :=
    fun q => rustClamp_mem q 0 1 (by norm_num)
  have hvol : ∀ k : Int, 0 ≤ rustClamp k 0 200 ∧ rustClamp k 0 200 ≤ 200 :=
    fun k => rustClamp_mem k 0 200 (by omega)
  refine ⟨?_, ?_, ?_⟩
  · obtain ⟨h1, h2, h3, h4, h5, h6, h7, h8, h9, h10⟩ := h
    exact ⟨(hvol v).1, (hvol v).2, h3, h4, h5, h6, h7, h8, h9, h10⟩
  · simp only [set_audio_fx]
    exact fxInRange_apply_fx_reverb_mix _
      (fxInRange_apply_fx_bass_db _
        (fxInRange_apply_fx_swap_lr _
          (fxInRange_apply_fx_width _
            (fxInRange_apply_fx_pan _ h r.pan) r.width) r.swap_lr) r.bass_db)
      r.reverb_mix
  · cases loaded with
    | none => decide
    | some ps =>
      exact ⟨(hvol ps.volume_percent).1, (hvol ps.volume_percent).2,
        (hp ps.fx_pan).1, (hp ps.fx_pan).2, (hw ps.fx_width).1, (hw ps.fx_width).2,
        (hbb ps.fx_bass_db).1, (hbb ps.fx_bass_db).2,
        (hm ps.fx_reverb_mix).1, (hm ps.fx_reverb_mix).2⟩

/-- From an armed debounce state, a timeline whose gaps stay under 200 ms
never fires the timer between arrivals: each arrival replaces pending and
re-arms, and the single write that eventually happens carries the final
snapshot, whatever the close time. -/
theorem debounceWrites_tight_gaps (rest : List (Nat × PersistedVoiceState)) :
    ∀ (p : PersistedVoiceState) (tprev close_time : Nat), gapsOK tprev rest = true →
      debounceWrites (some p) (some (tprev + 200)) rest close_time
        = [(rest.map Prod.snd).getLastD p] := by
  induction rest with
  | nil =>
    intro p tprev ct _
    simp [debounceWrites]
  | cons e rest ih =>
    obtain ⟨t, s⟩ := e
    intro p tprev ct hg
    simp only [gapsOK, Bool.and_eq_true, decide_eq_true_eq] at hg
    obtain ⟨⟨h1, h2⟩, h3⟩ := hg
    have hfire : decide (tprev + 200 < t) = false := by
      simp
      omega
    simp only [debounceWrites, hfire, if_neg Bool.false_ne_true, List.nil_append,
      List.map_cons, List.getLastD_cons]
    exact ih s t ct h3

/-- Claim C8: for every sequence of N ≥ 1 snapshot arrivals with
successive gaps shorter than 200 ms, the persistence task performs exactly
one file write and it carries the last snapshot of the sequence; each
arrival replaces the pending snapshot and re-arms the 200 ms timer, so no
intermediate write happens; and the close time is universally quantified,
so the same single write results whether the timer fires during the
quiescence or the channel close flushes the pending snapshot. -/
theorem c8_debounce_single_write (t1 : Nat) (s1 : PersistedVoiceState)
    (rest : List (Nat × PersistedVoiceState)) (close_time : Nat)
    (h : gapsOK t1 rest = true) :
    debounceWrites none none ((t1, s1) :: rest) close_time
      = [(rest.map Prod.snd).getLastD s1] ∧
    (debounceWrites none none ((t1, s1) :: rest) close_time).length = 1 := by
  have he : debounceWrites none none ((t1, s1) :: rest) close_time
      = debounceWrites (some s1) (some (t1 + 200)) rest close_time := by
    simp [debounceWrites]
  rw [he, debounceWrites_tight_gaps rest s1 t1 close_time h]
  exact ⟨rfl, rfl⟩

/-- Claim C8 witness: two snapshots 150 ms apart (the second changing
fx_pan), closing at 1000 ms: exactly one write, carrying the second
snapshot. -/
theorem c8_debounce_single_write_witness :
    debounceWrites none none
        [(0, PersistedVoiceState.default),
         (150, { PersistedVoiceState.default with fx_pan := 1 })] 1000
      = [{ PersistedVoiceState.default with fx_pan := 1 }] ∧
    (debounceWrites none none
        [(0, PersistedVoiceState.default),
         (150, { PersistedVoiceState.default with fx_pan := 1 })] 1000).length = 1 :=
  c8_debounce_single_write 0 PersistedVoiceState.default
    [(150, { PersistedVoiceState.default with fx_pan := 1 })] 1000 (by decide)

/-- The search loop of resolve_repo_relative stops exactly at the first
ancestor (nearest first, root last) containing .git, and at the root when
none does. -/
theorem resolveLoopRev_eq_find (git : List String → Bool) (r : List String) :
    resolveLoopRev git r = ((r.tails.map List.reverse).find? git).getD [] := by
  induction r with
  | nil =>
    cases hg : git [] <;>
      simp [resolveLoopRev, hg]
  | cons c rest ih =>
    rw [resolveLoopRev, List.tails_cons, List.map_cons]
    cases hg : git (c :: rest).reverse with
    | true =>
      rw [if_pos rfl, List.find?_cons_of_pos _ hg]
      rfl
    | false =>
      rw [if_neg (by simp), List.find?_cons_of_neg _ (by simpa using hg)]
      exact ih

/-- Claim C4 counterexample: in a filesystem with no .git anywhere, from
working directory /home/user, the relative path x resolves to /x — it is
joined to the filesystem root — while the claim requires /home/user/x,
joined to the working directory itself. -/
theorem c4_counterexample_no_git_resolves_to_root :
    resolve_repo_relative (fun _ => false) ["home", "user"]
        { absolute := false, components := ["x"] }
      = { absolute := true, components := ["x"] } ∧
    resolve_repo_relative_claimed (fun _ => false) ["home", "user"]
        { absolute := false, components := ["x"] }
      = { absolute := true, components := ["home", "user", "x"] } :=
  ⟨rfl, rfl⟩

/-- Claim C4 (amended): absolute paths are returned unchanged; a relative
path is joined to the nearest ancestor of the working directory (the
directory itself included) that contains a .git entry, and when no
ancestor contains one it is joined to the filesystem root — the last
directory the pop loop examined — rather than to the working directory. -/
theorem c4_amended_resolve_repo_relative (git : List String → Bool)
    (cwd : List String) (p : MPath) :
    (p.absolute = true → resolve_repo_relative git cwd p = p) ∧
    (p.absolute = false →
      resolve_repo_relative git cwd p =
        { absolute := true,
          components := ((gitAncestors cwd).find? git).getD [] ++ p.components }) ∧
    (p.absolute = false → ∀ d : List String, (gitAncestors cwd).find? git = some d →
      resolve_repo_relative git cwd p
        = { absolute := true, components := d ++ p.components }) ∧
    (p.absolute = false → (gitAncestors cwd).find? git = none →
      resolve_repo_relative git cwd p
        = { absolute := true, components := p.components }) := by
  have hchar : resolveLoop git cwd = ((gitAncestors cwd).find? git).getD [] := by
    unfold resolveLoop gitAncestors
    exact resolveLoopRev_eq_find git cwd.reverse
  refine ⟨?_, ?_, ?_, ?_⟩
  · intro ha
    simp [resolve_repo_relative, ha]
  · intro ha
    simp [resolve_repo_relative, ha, hchar]
  · intro ha d hd
    simp [resolve_repo_relative, ha, hchar, hd]
  · intro ha hd
    simp [resolve_repo_relative, ha, hchar, hd]

/-- Claim C4 witness: the amended theorem applied to the relative path x
from /home/user in a filesystem whose only .git entry is in /home. -/
theorem c4_amended_resolve_repo_relative_witness :
    resolve_repo_relative (fun d => d = ["home"]) ["home", "user"]
        { absolute := false, components := ["x"] }
      = { absolute := true, components := ["home", "x"] } := by
  have h := (c4_amended_resolve_repo_relative (fun d => d = ["home"])
    ["home", "user"] { absolute := false, components := ["x"] }).2.2.1
  exact h rfl ["home"] (by decide)

/-- Characterization of a continuing tick: the successor state and packet
are determined by the recomputed pre-buffer flag, the first-pcm flag and
the acquisition result. -/
theorem playbackTick_cont_spec (st : PlayLoopState) (inp : TickInput)
    (st2 : PlayLoopState) (pkt : Packet)
    (h : playbackTick st inp = TickOutcome.cont st2 pkt) :
    ∃ b2 g,
      acquireFrame (st.prebuffering && decide (st.pcm_buf + inp.arrivals < prebuffer_target))
          (st.pcm_buf + inp.arrivals) inp.late = some (b2, g) ∧
      pkt = (if g then Packet.real else Packet.silence) ∧
      st2 = { pcm_buf := b2,
              prebuffering :=
                st.prebuffering && decide (st.pcm_buf + inp.arrivals < prebuffer_target),
              logged_first_pcm :=
                st.logged_first_pcm || decide (0 < st.pcm_buf + inp.arrivals),
              underruns_consecutive :=
                if g then 0 else st.underruns_consecutive + 1,
              underruns_total :=
                if g then st.underruns_total else st.underruns_total + 1 } := by
  simp only [playbackTick] at h
  split at h
  · exact absurd h (by simp)
  · rcases hacq : acquireFrame
        (st.prebuffering && decide (st.pcm_buf + inp.arrivals < prebuffer_target))
        (st.pcm_buf + inp.arrivals) inp.late with _ | ⟨b2, g⟩
    · rw [hacq] at h
      exact absurd h (by simp)
    · rw [hacq] at h
      simp only [] at h
      split at h
      next hg =>
        subst hg
        split at h
        · exact absurd h (by simp)
        · injection h with h1 h2
          exact ⟨b2, true, rfl, h2.symm, h1.symm⟩
      next hg =>
        have hgf : g = false := by
          cases g
          · rfl
          · exact absurd rfl hg
        subst hgf
        split at h
        · exact absurd h (by simp)
        · injection h with h1 h2
          exact ⟨b2, false, rfl, h2.symm, h1.symm⟩

/-- During pre-buffer the acquisition takes no frame. -/
theorem acquireFrame_prebuf (buf : Nat) (late : LateRecv) :
    acquireFrame true buf late = some (buf, false) := rfl

/-- A real frame is acquired only outside pre-buffer. -/
theorem acquireFrame_got_not_prebuf (p : Bool) (buf : Nat) (late : LateRecv)
    (b2 : Nat) (h : acquireFrame p buf late = some (b2, true)) : p = false := by
  cases p
  · rfl
  · rw [acquireFrame_prebuf] at h
    simp at h

/-- With an empty buffer and a timed-out wait, the acquisition yields
silence whatever the pre-buffer flag. -/
theorem acquireFrame_empty_timeout (p : Bool) :
    acquireFrame p 0 LateRecv.timeout = some (0, false) := by
  cases p <;> rfl

/-- Once the pre-buffer phase is over it never comes back. -/
theorem playbackTick_prebuf_mono (st : PlayLoopState) (inp : TickInput)
    (st2 : PlayLoopState) (pkt : Packet)
    (h : playbackTick st inp = TickOutcome.cont st2 pkt)
    (hp : st.prebuffering = false) : st2.prebuffering = false := by
  obtain ⟨b2, g, _, _, hst2⟩ := playbackTick_cont_spec st inp st2 pkt h
  rw [hst2]
  simp [hp]

/-- A tick that ends still pre-buffering sent a silence packet. -/
theorem playbackTick_prebuf_silence (st : PlayLoopState) (inp : TickInput)
    (st2 : PlayLoopState) (pkt : Packet)
    (h : playbackTick st inp = TickOutcome.cont st2 pkt)
    (hq : st2.prebuffering = true) : pkt = Packet.silence := by
  obtain ⟨b2, g, hacq, hpkt, hst2⟩ := playbackTick_cont_spec st inp st2 pkt h
  rw [hst2] at hq
  simp only at hq
  rw [hq, acquireFrame_prebuf] at hacq
  have hg : g = false := by
    have := (Option.some.injEq _ _).mp hacq
    exact (Prod.mk.injEq _ _ _ _).mp this |>.2 |>.symm
  rw [hpkt, hg]
  rfl

/-- A tick can send a real packet only once pre-buffering is off in the
resulting state. -/
theorem playbackTick_real_not_prebuf (st : PlayLoopState) (inp : TickInput)
    (st2 : PlayLoopState)
    (h : playbackTick st inp = TickOutcome.cont st2 Packet.real) :
    st2.prebuffering = false := by
  obtain ⟨b2, g, hacq, hpkt, hst2⟩ := playbackTick_cont_spec st inp st2 Packet.real h
  have hg : g = true := by
    cases g
    · simp at hpkt
    · rfl
  rw [hg] at hacq
  have hpre := acquireFrame_got_not_prebuf _ _ _ _ hacq
  rw [hst2]
  simp only
  exact hpre

/-- The pre-buffer flag turns off only at a tick where the drained buffer
has reached the 5-frame target. -/
theorem playbackTick_prebuf_off_needs_target (st : PlayLoopState) (inp : TickInput)
    (st2 : PlayLoopState) (pkt : Packet)
    (hp : st.prebuffering = true)
    (h : playbackTick st inp = TickOutcome.cont st2 pkt)
    (hq : st2.prebuffering = false) :
    prebuffer_target ≤ st.pcm_buf + inp.arrivals := by
  obtain ⟨b2, g, hacq, hpkt, hst2⟩ := playbackTick_cont_spec st inp st2 pkt h
  rw [hst2] at hq
  simp only [hp, Bool.true_and] at hq
  have := of_decide_eq_false hq
  omega

/-- With a real frame seen, 149 prior consecutive underruns, an empty
buffer, no arrivals and a timed-out wait, the tick fails with the
sustained-underrun error. -/
theorem playbackTick_underrun_fires (st : PlayLoopState) (inp : TickInput)
    (hl : st.logged_first_pcm = true) (hc : 149 ≤ st.underruns_consecutive)
    (hb : st.pcm_buf = 0) (ha : inp.arrivals = 0) (ht : inp.late = LateRecv.timeout) :
    playbackTick st inp = TickOutcome.errUnderrun := by
  simp [playbackTick, hl, hb, ha, ht, acquireFrame_empty_timeout]
  omega

/-- A tick from a state where no frame was ever seen, with no arrivals,
either fails with the no-pcm error or continues pre-buffering with one
more silence packet and no frame seen. -/
theorem playbackTick_no_frames (st : PlayLoopState) (inp : TickInput)
    (hb : st.pcm_buf = 0) (hp : st.prebuffering = true)
    (hl : st.logged_first_pcm = false) (ha : inp.arrivals = 0) :
    playbackTick st inp = TickOutcome.errNoPcm ∨
    playbackTick st inp = TickOutcome.cont
      { pcm_buf := 0, prebuffering := true, logged_first_pcm := false,
        underruns_consecutive := st.underruns_consecutive + 1,
        underruns_total := st.underruns_total + 1 } Packet.silence := by
  by_cases he : 5000 ≤ inp.elapsed_ms
  · left
    simp [playbackTick, hb, hl, ha, he]
  · right
    simp [playbackTick, hl, hb, ha, hp, he, acquireFrame_prebuf, prebuffer_target]

/-- The sustained-underrun failure is guarded by the first-pcm flag: a
failing tick had already seen a real frame (flag set earlier, or a frame
arrived this very tick). -/
theorem playbackTick_underrun_requires_seen (st : PlayLoopState) (inp : TickInput)
    (h : playbackTick st inp = TickOutcome.errUnderrun) :
    (st.logged_first_pcm || decide (0 < st.pcm_buf + inp.arrivals)) = true := by
  simp only [playbackTick] at h
  split at h
  · simp at h
  · rcases hacq : acquireFrame
        (st.prebuffering && decide (st.pcm_buf + inp.arrivals < prebuffer_target))
        (st.pcm_buf + inp.arrivals) inp.late with _ | ⟨b2, g⟩
    · rw [hacq] at h
      simp at h
    · rw [hacq] at h
      simp only [] at h
      split at h
      next hg =>
        split at h
        next hcond => exact hcond.1
        next => simp at h
      next hg =>
        split at h
        next hcond => exact hcond.1
        next => simp at h

/-- Across a whole run, once pre-buffering is off it stays off. -/
theorem playbackRunFrom_prebuf_mono (inps : List TickInput) :
    ∀ (st : PlayLoopState) (acc : List Packet) (st2 : PlayLoopState)
      (pkts : List Packet),
      playbackRunFrom st acc inps = LoopOutcome.running st2 pkts →
      st.prebuffering = false → st2.prebuffering = false := by
  induction inps with
  | nil =>
    intro st acc st2 pkts h hp
    simp only [playbackRunFrom] at h
    cases h
    exact hp
  | cons inp rest ih =>
    intro st acc st2 pkts h hp
    cases htick : playbackTick st inp with
    | cont st3 pkt =>
      simp only [playbackRunFrom, htick] at h
      exact ih st3 (acc ++ [pkt]) st2 pkts h
        (playbackTick_prebuf_mono st inp st3 pkt htick hp)
    | eos => simp [playbackRunFrom, htick] at h
    | errNoPcm => simp [playbackRunFrom, htick] at h
    | errUnderrun => simp [playbackRunFrom, htick] at h

/-- A run that is still pre-buffering at its end has sent only silence
packets (beyond whatever was already accumulated). -/
theorem playbackRunFrom_prebuf_all_silence (inps : List TickInput) :
    ∀ (st : PlayLoopState) (acc : List Packet) (st2 : PlayLoopState)
      (pkts : List Packet),
      playbackRunFrom st acc inps = LoopOutcome.running st2 pkts →
      st2.prebuffering = true →
      (∀ p ∈ acc, p = Packet.silence) →
      ∀ p ∈ pkts, p = Packet.silence := by
  induction inps with
  | nil =>
    intro st acc st2 pkts h _ hacc
    simp only [playbackRunFrom] at h
    cases h
    exact hacc
  | cons inp rest ih =>
    intro st acc st2 pkts h hfin hacc
    cases htick : playbackTick st inp with
    | cont st3 pkt =>
      simp only [playbackRunFrom, htick] at h
      have hp3 : st3.prebuffering = true := by
        cases hb : st3.prebuffering
        · have := playbackRunFrom_prebuf_mono rest st3 (acc ++ [pkt]) st2 pkts h hb
          rw [this] at hfin
          exact absurd hfin (by simp)
        · rfl
      have hpkt : pkt = Packet.silence :=
        playbackTick_prebuf_silence st inp st3 pkt htick hp3
      refine ih st3 (acc ++ [pkt]) st2 pkts h hfin ?_
      intro p hp
      rcases List.mem_append.mp hp with hin | hin
      · exact hacc p hin
      · exact (List.mem_singleton.mp hin).trans hpkt
    | eos => simp [playbackRunFrom, htick] at h
    | errNoPcm => simp [playbackRunFrom, htick] at h
    | errUnderrun => simp [playbackRunFrom, htick] at h

/-- A run that never receives a frame cannot end in the sustained-underrun
failure: that failure is guarded by the first-pcm flag. -/
theorem playbackRunFrom_no_frames_no_underrun (inps : List TickInput) :
    ∀ (st : PlayLoopState) (acc : List Packet) (pkts : List Packet),
      st.pcm_buf = 0 → st.prebuffering = true → st.logged_first_pcm = false →
      (∀ i ∈ inps, i.arrivals = 0) →
      playbackRunFrom st acc inps ≠ LoopOutcome.failUnderrun pkts := by
  induction inps with
  | nil =>
    intro st acc pkts _ _ _ _ h
    simp [playbackRunFrom] at h
  | cons inp rest ih =>
    intro st acc pkts hb hp hl hall h
    rcases playbackTick_no_frames st inp hb hp hl (hall inp (by simp)) with ht | ht
    · simp [playbackRunFrom, ht] at h
    · simp only [playbackRunFrom, ht] at h
      exact ih _ _ pkts rfl rfl rfl (fun i hi => hall i (by simp [hi])) h

/-- Claim C2 counterexample: on the very first tick, with nothing arrived,
the loop is still pre-buffering (the buffer never reached 5 frames) and
yet one packet — silence — has already been handed to ts3_audio_tx: the
claim that no packet is sent during pre-buffer is false. -/
theorem c2_counterexample_silence_sent_during_prebuffer :
    playbackRun [{ arrivals := 0, late := LateRecv.timeout, elapsed_ms := 20 }]
      = LoopOutcome.running
          { pcm_buf := 0, prebuffering := true, logged_first_pcm := false,
            underruns_consecutive := 1, underruns_total := 1 }
          [Packet.silence] := by
  rfl

/-- Claim C2 (amended): while the pre-buffer condition holds, the loop
sends no real-audio packet — but it does send one silence packet per tick
to keep cadence. Every packet sent while the run is still pre-buffering is
silence; a real packet can only be sent at a tick whose resulting state
has left pre-buffer; and pre-buffer is left only at a tick where the
decoded buffer has reached 5 frames. -/
theorem c2_amended_prebuffer_sends_only_silence :
    (∀ (inputs : List TickInput) (st : PlayLoopState) (pkts : List Packet),
      playbackRun inputs = LoopOutcome.running st pkts →
      st.prebuffering = true →
      ∀ p ∈ pkts, p = Packet.silence) ∧
    (∀ (st : PlayLoopState) (inp : TickInput) (st2 : PlayLoopState),
      playbackTick st inp = TickOutcome.cont st2 Packet.real →
      st2.prebuffering = false) ∧
    (∀ (st : PlayLoopState) (inp : TickInput) (st2 : PlayLoopState) (pkt : Packet),
      st.prebuffering = true →
      playbackTick st inp = TickOutcome.cont st2 pkt →
      st2.prebuffering = false →
      prebuffer_target ≤ st.pcm_buf + inp.arrivals) := by
  refine ⟨?_, ?_, ?_⟩
  · intro inputs st pkts h hpre
    exact playbackRunFrom_prebuf_all_silence inputs initPlayLoopState [] st pkts h hpre
      (by simp)
  · intro st inp st2 h
    exact playbackTick_real_not_prebuf st inp st2 h
  · intro st inp st2 pkt hp h hq
    exact playbackTick_prebuf_off_needs_target st inp st2 pkt hp h hq

/-- Claim C5: a run that never receives a frame never fails with the
sustained-underrun error (the guard requires the first-pcm flag); once a
real frame has been seen, a tick that brings the consecutive silence count
to 150 fails with the sustained-underrun error; and a run ending in that
failure is reported as exactly one PlaybackEvent of type ERROR, never
FINISHED. -/
theorem c5_sustained_underrun_policy :
    (∀ (inputs : List TickInput) (pkts : List Packet),
      (∀ i ∈ inputs, i.arrivals = 0) →
      playbackRun inputs ≠ LoopOutcome.failUnderrun pkts) ∧
    (∀ (st : PlayLoopState) (inp : TickInput),
      playbackTick st inp = TickOutcome.errUnderrun →
      (st.logged_first_pcm || decide (0 < st.pcm_buf + inp.arrivals)) = true) ∧
    (∀ (st : PlayLoopState) (inp : TickInput),
      st.logged_first_pcm = true → 149 ≤ st.underruns_consecutive →
      st.pcm_buf = 0 → inp.arrivals = 0 → inp.late = LateRecv.timeout →
      playbackTick st inp = TickOutcome.errUnderrun) ∧
    (∀ (inputs : List TickInput) (pkts : List Packet) (title source_url : String),
      playbackRun inputs = LoopOutcome.failUnderrun pkts →
      loopResult (playbackRun inputs) = some (Except.error UNDERRUN_ERROR) ∧
      playbackTaskEvents (Except.error UNDERRUN_ERROR) title source_url
        = [{ ty := PLAYBACK_ERROR, title := title, source_url := source_url,
             detail := UNDERRUN_ERROR }] ∧
      (playbackTaskEvents (Except.error UNDERRUN_ERROR) title source_url).length = 1 ∧
      ∀ ev ∈ playbackTaskEvents (Except.error UNDERRUN_ERROR) title source_url,
        ev.ty ≠ PLAYBACK_FINISHED) := by
  refine ⟨?_, ?_, ?_, ?_⟩
  · intro inputs pkts hall
    exact playbackRunFrom_no_frames_no_underrun inputs initPlayLoopState [] pkts
      rfl rfl rfl hall
  · intro st inp h
    exact playbackTick_underrun_requires_seen st inp h
  · intro st inp hl hc hb ha ht
    exact playbackTick_underrun_fires st inp hl hc hb ha ht
  · intro inputs pkts title source_url h
    refine ⟨by rw [h]; rfl, rfl, rfl, ?_⟩
    intro ev hev
    simp only [playbackTaskEvents, List.mem_singleton] at hev
    rw [hev]
    simp [PLAYBACK_ERROR, PLAYBACK_FINISHED]

/-- Claim C7 witness: the range theorem applied at the initial status with
volume request 999, an all-out-of-range FX request, and an out-of-range
persisted file. -/
theorem c7_fx_parameter_ranges_witness :
    fxInRange (set_volume initStatus 999).1 ∧
    fxInRange (set_audio_fx initStatus
      ⟨some 5, some (-2), some true, some 99, some 7⟩).1 ∧
    fxInRange (apply_persisted_load (some
      { volume_percent := -3, fx_pan := 9, fx_width := -1, fx_swap_lr := true,
        fx_bass_db := 100, fx_reverb_mix := 2 })) :=
  c7_fx_parameter_ranges initStatus (by decide) 999
    ⟨some 5, some (-2), some true, some 99, some 7⟩
    (some { volume_percent := -3, fx_pan := 9, fx_width := -1, fx_swap_lr := true,
            fx_bass_db := 100, fx_reverb_mix := 2 })
